import Mathlib

/-!
Verification model of `tools/data_migrate/migrate.py`, a data-migration tool
that copies two entity types (accounts and groups) between a SQLite backend
and a MongoDB backend.

Modelling conventions (shallow embedding of the Python source):

* Python runtime values that flow through the untyped `cookies` /
  `account_ids` fields are modelled by the inductive `Json`; the Python value
  `None` is identified with `Json.null` (exactly as `json.loads "null"`
  returns Python `None`).
* The serialized TEXT produced by `json.dumps` and consumed by `json.loads`
  is modelled by `JText`: `JText.enc j` stands for any text that parses to
  the value `j` (with `json.dumps` producing that canonical representative),
  and `JText.malformed s` stands for a text `s` that is not valid JSON, on
  which `json.loads` raises `JSONDecodeError`.  `json.dumps` never returns
  the empty string, so `JText.enc _` is always truthy.
* A SQLite table is a list of typed rows keyed by the `id` PRIMARY KEY
  column; `INSERT OR REPLACE` removes the row with the conflicting key and
  appends the new row.  `SELECT ... ORDER BY id` is modelled by sorting the
  rows with the order on `String` (BINARY collation on UTF-8 text orders
  exactly like the codepoint-lexicographic order on `String`).
* A MongoDB collection is a list of documents keyed by `_id`; fields other
  than `_id` may be absent, hold a BSON null, or hold a value (`DocField`);
  `replace_one(..., upsert=True)` removes the document with the matching
  `_id` (unique index) and appends the replacement.  `find().sort("_id", 1)`
  is modelled by sorting on `_id`.
* Document fields are typed at the shapes this tool reads and writes:
  `role_name`/`user_name`/`password` absent-or-string, `server_id`
  absent-or-int, `ranking` and `description` absent/null/value, `cookies`
  and `account_ids` absent-or-JSON-value (a stored BSON null is
  `some Json.null`, which `doc.get` returns as Python `None` = `Json.null`).
* The migration pipeline's effect on the target backend is modelled as the
  list of operations it invokes (`MigrateOp`), in order; `print` calls and
  the CLI shell are outside the modelled core.
-/

namespace DataMigrate

/-- A JSON value; doubles as the model of the Python runtime values held in
the dynamically-typed `cookies` / `account_ids` fields, with `Json.null`
standing for the Python value `None`. -/
inductive Json where
  | null
  | bool (b : Bool)
  | num (n : Int)
  | str (s : String)
  | arr (elems : List Json)
  | obj (fields : List (String × Json))

/-- Python truthiness (`if x:`) of a runtime value: `None`, `False`, `0`,
`""`, `[]` and `{}` are falsy, everything else is truthy. -/
def pyTruthy : Json → Bool
  | .null => false
  | .bool b => b
  | .num n => n != 0
  | .str s => s != ""
  | .arr elems => !elems.isEmpty
  | .obj fields => !fields.isEmpty

/-- The text stored in a SQLite TEXT column holding a JSON encoding:
`enc j` is a text that `json.loads` parses to `j` (and is what `json.dumps j`
produces), `malformed s` is a text on which `json.loads` raises. -/
inductive JText where
  | enc (j : Json)
  | malformed (s : String)

/-- `json.dumps`. -/
def jdumps (j : Json) : JText := .enc j

/-- `json.loads`, as a partial function: `none` models `JSONDecodeError`. -/
def jloads : JText → Option Json
  | .enc j => some j
  | .malformed _ => none

/-- Python truthiness of the stored text (`if row["cookies"]:`): only the
empty string is falsy; `json.dumps` output is never empty. -/
def tTruthy : JText → Bool
  | .enc _ => true
  | .malformed s => s != ""

/-- The `Account` dataclass.  `ranking` is annotated `int` in the source but
Python does not enforce the annotation: a SQLite `NULL` or a Mongo null read
lands a `None` in this slot, hence `Option Int` (`none` = Python `None`).
`cookies` is annotated `list[dict] | None`; at runtime it holds whatever
`json.loads` / `doc.get` produced, hence `Json` with `Json.null` = `None`. -/
structure Account where
  id : String
  role_name : String
  user_name : String
  password : String
  server_id : Int
  ranking : Option Int
  cookies : Json

/-- The `Group` dataclass; same conventions as `Account` for `ranking` and
for the dynamically-typed `account_ids`. -/
structure Group where
  id : String
  name : String
  description : Option String
  account_ids : Json
  ranking : Option Int

/-- A row of the SQLite `accounts` table:
`accounts(id TEXT PRIMARY KEY, role_name TEXT NOT NULL, user_name TEXT NOT
NULL, password TEXT NOT NULL, server_id INTEGER NOT NULL, ranking INTEGER
DEFAULT 0, cookies TEXT)`.  `ranking` and `cookies` are nullable. -/
structure AccountRow where
  id : String
  role_name : String
  user_name : String
  password : String
  server_id : Int
  ranking : Option Int
  cookies : Option JText

/-- A row of the SQLite `groups` table:
`groups(id TEXT PRIMARY KEY, name TEXT NOT NULL, description TEXT,
account_ids TEXT NOT NULL, ranking INTEGER DEFAULT 0)`. -/
structure GroupRow where
  id : String
  name : String
  description : Option String
  account_ids : JText
  ranking : Option Int

/-- A MongoDB document field that can be absent, hold a BSON null, or hold
a value of the expected shape. -/
inductive DocField (α : Type) where
  | absent
  | dbNull
  | val (a : α)

/-- A document of the Mongo `accounts` collection, at the shapes this tool
reads and writes (see the module docstring). -/
structure AccountDoc where
  _id : String
  role_name : Option String
  user_name : Option String
  password : Option String
  server_id : Option Int
  ranking : DocField Int
  cookies : Option Json

/-- A document of the Mongo `groups` collection. -/
structure GroupDoc where
  _id : String
  name : Option String
  description : DocField String
  account_ids : Option Json
  ranking : DocField Int

/-! ### SqliteBackend -/

/-- The row bound by `SqliteBackend.write_accounts` for one account:
`cookies_json = json.dumps(acc.cookies) if acc.cookies else None`, then
`INSERT OR REPLACE ... VALUES (acc.id, acc.role_name, acc.user_name,
acc.password, acc.server_id, acc.ranking, cookies_json)`. -/
def accountRowOfAccount (acc : Account) : AccountRow :=
  { id := acc.id
    role_name := acc.role_name
    user_name := acc.user_name
    password := acc.password
    server_id := acc.server_id
    ranking := acc.ranking
    cookies := if pyTruthy acc.cookies then some (jdumps acc.cookies) else none }

/-- The row bound by `SqliteBackend.write_groups` for one group:
`account_ids_json = json.dumps(grp.account_ids)` (unconditionally). -/
def groupRowOfGroup (grp : Group) : GroupRow :=
  { id := grp.id
    name := grp.name
    description := grp.description
    account_ids := jdumps grp.account_ids
    ranking := grp.ranking }

/-- `SqliteBackend.read_accounts` cookie decoding:
`cookies = None; if row["cookies"]: try: cookies = json.loads(row["cookies"])
except json.JSONDecodeError: pass`. -/
def decodeCookiesCell : Option JText → Json
  | none => Json.null
  | some t =>
    if tTruthy t then
      match jloads t with
      | some j => j
      | none => Json.null
    else Json.null

/-- `SqliteBackend.read_groups` account_ids decoding:
`account_ids = []; if row["account_ids"]: try: account_ids =
json.loads(row["account_ids"]) except json.JSONDecodeError: pass`. -/
def decodeAccountIdsCell (t : JText) : Json :=
  if tTruthy t then
    match jloads t with
    | some j => j
    | none => Json.arr []
  else Json.arr []

/-- The `Account` built by `SqliteBackend.read_accounts` from one row. -/
def accountOfRow (row : AccountRow) : Account :=
  { id := row.id
    role_name := row.role_name
    user_name := row.user_name
    password := row.password
    server_id := row.server_id
    ranking := row.ranking
    cookies := decodeCookiesCell row.cookies }

/-- The `Group` built by `SqliteBackend.read_groups` from one row. -/
def groupOfRow (row : GroupRow) : Group :=
  { id := row.id
    name := row.name
    description := row.description
    account_ids := decodeAccountIdsCell row.account_ids
    ranking := row.ranking }

/-- `SqliteBackend.read_accounts`: `SELECT ... FROM accounts ORDER BY id`,
then build an `Account` per row. -/
def sqliteReadAccounts (tbl : List AccountRow) : List Account :=
  (tbl.insertionSort (fun a b => a.id ≤ b.id)).map accountOfRow

/-- `SqliteBackend.read_groups`: `SELECT ... FROM groups ORDER BY id`. -/
def sqliteReadGroups (tbl : List GroupRow) : List Group :=
  (tbl.insertionSort (fun a b => a.id ≤ b.id)).map groupOfRow

/-- `INSERT OR REPLACE` / `replace_one(upsert=True)`: delete the record
with the conflicting key, insert the new one. -/
def upsertByKey {ρ : Type} (key : ρ → String) (t : List ρ) (x : ρ) : List ρ :=
  t.filter (fun r => key r != key x) ++ [x]

/-- `SqliteBackend.write_accounts`: one `INSERT OR REPLACE` per account, in
list order. -/
def sqliteWriteAccounts (tbl : List AccountRow) (accounts : List Account) : List AccountRow :=
  accounts.foldl (fun t acc => upsertByKey (fun r => r.id) t (accountRowOfAccount acc)) tbl

/-- `SqliteBackend.write_groups`: one `INSERT OR REPLACE` per group, in
list order. -/
def sqliteWriteGroups (tbl : List GroupRow) (groups : List Group) : List GroupRow :=
  groups.foldl (fun t grp => upsertByKey (fun r => r.id) t (groupRowOfGroup grp)) tbl

/-! ### MongoBackend -/

/-- The document built by `MongoBackend.write_accounts` for one account:
all scalar fields are set unconditionally (a Python `None` ranking is stored
as a BSON null), and `if acc.cookies is not None: doc["cookies"] =
acc.cookies` — the `cookies` key is omitted when the value is `None`. -/
def accountDocOfAccount (acc : Account) : AccountDoc :=
  { _id := acc.id
    role_name := some acc.role_name
    user_name := some acc.user_name
    password := some acc.password
    server_id := some acc.server_id
    ranking := match acc.ranking with
      | some n => DocField.val n
      | none => DocField.dbNull
    cookies := match acc.cookies with
      | Json.null => none
      | c => some c }

/-- The document built by `MongoBackend.write_groups` for one group: every
field is set unconditionally (`description = None` is stored as a BSON
null). -/
def groupDocOfGroup (grp : Group) : GroupDoc :=
  { _id := grp.id
    name := some grp.name
    description := match grp.description with
      | some s => DocField.val s
      | none => DocField.dbNull
    account_ids := some grp.account_ids
    ranking := match grp.ranking with
      | some n => DocField.val n
      | none => DocField.dbNull }

/-- The `Account` built by `MongoBackend.read_accounts` from one document:
`doc.get(field, default)` returns the default only when the key is absent;
a stored BSON null is returned as Python `None`. -/
def accountOfDoc (doc : AccountDoc) : Account :=
  { id := doc._id
    role_name := doc.role_name.getD ""
    user_name := doc.user_name.getD ""
    password := doc.password.getD ""
    server_id := doc.server_id.getD 0
    ranking := match doc.ranking with
      | DocField.absent => some 0
      | DocField.dbNull => none
      | DocField.val n => some n
    cookies := doc.cookies.getD Json.null }

/-- The `Group` built by `MongoBackend.read_groups` from one document. -/
def groupOfDoc (doc : GroupDoc) : Group :=
  { id := doc._id
    name := doc.name.getD ""
    description := match doc.description with
      | DocField.absent => none
      | DocField.dbNull => none
      | DocField.val s => some s
    account_ids := doc.account_ids.getD (Json.arr [])
    ranking := match doc.ranking with
      | DocField.absent => some 0
      | DocField.dbNull => none
      | DocField.val n => some n }

/-- `MongoBackend.read_accounts`: `find().sort("_id", 1)`. -/
def mongoReadAccounts (col : List AccountDoc) : List Account :=
  (col.insertionSort (fun a b => a._id ≤ b._id)).map accountOfDoc

/-- `MongoBackend.read_groups`: `find().sort("_id", 1)`. -/
def mongoReadGroups (col : List GroupDoc) : List Group :=
  (col.insertionSort (fun a b => a._id ≤ b._id)).map groupOfDoc

/-- `MongoBackend.write_accounts`: one `replace_one({"_id": acc.id}, doc,
upsert=True)` per account, in list order. -/
def mongoWriteAccounts (col : List AccountDoc) (accounts : List Account) : List AccountDoc :=
  accounts.foldl (fun c acc => upsertByKey (fun d => d._id) c (accountDocOfAccount acc)) col

/-- `MongoBackend.write_groups`: one `replace_one` per group, in list
order. -/
def mongoWriteGroups (col : List GroupDoc) (groups : List Group) : List GroupDoc :=
  groups.foldl (fun c grp => upsertByKey (fun d => d._id) c (groupDocOfGroup grp)) col

/-! ### Backend factory -/

/-- The two backends `create_backend` can construct; the constructors
`SqliteBackend(path)` and `MongoBackend(uri, database)` only store their
parameters (no file or network I/O happens before `connect`). -/
inductive Backend where
  | sqlite (path : String)
  | mongodb (uri : String) (database : String)

/-- Python truthiness of an optional CLI string (`if not path:`): both a
missing argument (`None`) and an empty string are falsy. -/
def pyTruthyOptStr : Option String → Bool
  | none => false
  | some s => s != ""

/-- `create_backend(storage_type, path, uri, database)`; `Except.error`
models the raised `ValueError`. -/
def createBackend (storage_type : String) (path uri database : Option String) :
    Except String Backend :=
  if storage_type = "sqlite" then
    if pyTruthyOptStr path = false then
      Except.error "SQLite requires --source-path or --target-path"
    else
      Except.ok (Backend.sqlite (path.getD ""))
  else if storage_type = "mongodb" then
    if pyTruthyOptStr uri = false || pyTruthyOptStr database = false then
      Except.error "MongoDB requires --source-uri/--target-uri and --source-db/--target-db"
    else
      Except.ok (Backend.mongodb (uri.getD "") (database.getD ""))
  else
    Except.error ("Unknown storage type: " ++ storage_type)

/-! ### Migration pipeline -/

/-- One call the `migrate` pipeline makes on the target backend. -/
inductive MigrateOp where
  | ensureSchema
  | writeAccounts (accounts : List Account)
  | writeGroups (groups : List Group)

/-- The in-place cookie stripping (`for acc in accounts: acc.cookies =
None`) performed when `skip_cookies` is set. -/
def stripCookies (accounts : List Account) : List Account :=
  accounts.map (fun acc => { acc with cookies := Json.null })

/-- The sequence of calls `migrate(source, target, dry_run, skip_cookies)`
makes on the target, given the lists read from the source: after the
optional cookie stripping, a dry run returns before touching the target;
otherwise `ensure_schema`, `write_accounts`, `write_groups`, in order. -/
def migrateOps (accounts : List Account) (groups : List Group)
    (dry_run : Bool) (skip_cookies : Bool) : List MigrateOp :=
  let accounts := if skip_cookies then stripCookies accounts else accounts
  if dry_run then []
  else [MigrateOp.ensureSchema, MigrateOp.writeAccounts accounts, MigrateOp.writeGroups groups]

/-- The persistent state of a SQLite backend (both tables; `ensure_schema`
uses `CREATE TABLE IF NOT EXISTS`, so on a schema-bearing state it is a
no-op). -/
structure SqliteState where
  accounts : List AccountRow
  groups : List GroupRow

/-- The persistent state of a Mongo backend (both collections;
`ensure_schema` is a literal `pass`). -/
structure MongoState where
  accounts : List AccountDoc
  groups : List GroupDoc

/-- The effect of one pipeline call on a SQLite target. -/
def applySqliteOp (st : SqliteState) (op : MigrateOp) : SqliteState :=
  match op with
  | MigrateOp.ensureSchema => st
  | MigrateOp.writeAccounts accs => { st with accounts := sqliteWriteAccounts st.accounts accs }
  | MigrateOp.writeGroups grps => { st with groups := sqliteWriteGroups st.groups grps }

/-- The effect of a sequence of pipeline calls on a SQLite target. -/
def applySqliteOps (st : SqliteState) (ops : List MigrateOp) : SqliteState :=
  ops.foldl applySqliteOp st

/-- The effect of one pipeline call on a Mongo target. -/
def applyMongoOp (st : MongoState) (op : MigrateOp) : MongoState :=
  match op with
  | MigrateOp.ensureSchema => st
  | MigrateOp.writeAccounts accs => { st with accounts := mongoWriteAccounts st.accounts accs }
  | MigrateOp.writeGroups grps => { st with groups := mongoWriteGroups st.groups grps }

/-- The effect of a sequence of pipeline calls on a Mongo target. -/
def applyMongoOps (st : MongoState) (ops : List MigrateOp) : MongoState :=
  ops.foldl applyMongoOp st

/-! ### Helper lemmas -/

/-- After a batch of keyed upserts, the stored records whose key equals `k`
are: the single converted record of the last batch element carrying key `k`,
or the unchanged prior records when no batch element carries key `k`. -/
theorem foldl_upsertByKey_filter {ρ β : Type} (key : ρ → String) (conv : β → ρ)
    (bid : β → String) (hkey : ∀ b, key (conv b) = bid b)
    (bs : List β) (tbl : List ρ) (k : String) :
    (bs.foldl (fun t b => upsertByKey key t (conv b)) tbl).filter (fun r => key r == k) =
      ((bs.filter (fun b => bid b == k)).getLast?).elim
        (tbl.filter (fun r => key r == k)) (fun b => [conv b]) := by
  induction bs using List.reverseRecOn with
  | nil => rfl
  | append_singleton bs b ih =>
    rw [List.foldl_append, List.foldl_cons, List.foldl_nil]
    set W := bs.foldl (fun t b => upsertByKey key t (conv b)) tbl with hW
    unfold upsertByKey
    rw [List.filter_append, List.filter_filter, List.filter_append]
    by_cases hb : bid b = k
    · have h1 : List.filter (fun r => key r == k) [conv b] = [conv b] := by
        simp [List.filter_cons, hkey, hb]
      have h2 : W.filter (fun a => key a == k && key a != key (conv b)) = [] := by
        apply List.filter_eq_nil_iff.mpr
        intro a _
        simp [hkey, hb]
      have h3 : List.filter (fun x => bid x == k) [b] = [b] := by
        simp [List.filter_cons, hb]
      rw [h1, h2, h3, List.getLast?_concat, List.nil_append]
      rfl
    · have h1 : List.filter (fun r => key r == k) [conv b] = [] := by
        simp [List.filter_cons, hkey, hb]
      have h2 : ∀ a ∈ W, (key a == k && key a != key (conv b)) = (key a == k) := by
        intro a _
        by_cases ha : key a = k
        · simp [ha, hkey, Ne.symm hb]
        · simp [ha]
      have h3 : List.filter (fun x => bid x == k) [b] = [] := by
        simp [List.filter_cons, hb]
      rw [List.filter_congr h2, h1, h3, List.append_nil, List.append_nil]
      exact ih

/-- `sqliteWriteAccounts` specialization of `foldl_upsertByKey_filter`. -/
theorem sqliteWriteAccounts_filter (tbl : List AccountRow) (bs : List Account) (k : String) :
    (sqliteWriteAccounts tbl bs).filter (fun r => r.id == k) =
      ((bs.filter (fun a => a.id == k)).getLast?).elim
        (tbl.filter (fun r => r.id == k)) (fun a => [accountRowOfAccount a]) := by
  unfold sqliteWriteAccounts
  exact foldl_upsertByKey_filter (fun r => r.id) accountRowOfAccount (fun a => a.id)
    (fun _ => rfl) bs tbl k

/-- `sqliteWriteGroups` specialization of `foldl_upsertByKey_filter`. -/
theorem sqliteWriteGroups_filter (tbl : List GroupRow) (bs : List Group) (k : String) :
    (sqliteWriteGroups tbl bs).filter (fun r => r.id == k) =
      ((bs.filter (fun g => g.id == k)).getLast?).elim
        (tbl.filter (fun r => r.id == k)) (fun g => [groupRowOfGroup g]) := by
  unfold sqliteWriteGroups
  exact foldl_upsertByKey_filter (fun r => r.id) groupRowOfGroup (fun g => g.id)
    (fun _ => rfl) bs tbl k

/-- `mongoWriteAccounts` specialization of `foldl_upsertByKey_filter`. -/
theorem mongoWriteAccounts_filter (col : List AccountDoc) (bs : List Account) (k : String) :
    (mongoWriteAccounts col bs).filter (fun d => d._id == k) =
      ((bs.filter (fun a => a.id == k)).getLast?).elim
        (col.filter (fun d => d._id == k)) (fun a => [accountDocOfAccount a]) := by
  unfold mongoWriteAccounts
  exact foldl_upsertByKey_filter (fun d => d._id) accountDocOfAccount (fun a => a.id)
    (fun _ => rfl) bs col k

/-- `mongoWriteGroups` specialization of `foldl_upsertByKey_filter`. -/
theorem mongoWriteGroups_filter (col : List GroupDoc) (bs : List Group) (k : String) :
    (mongoWriteGroups col bs).filter (fun d => d._id == k) =
      ((bs.filter (fun g => g.id == k)).getLast?).elim
        (col.filter (fun d => d._id == k)) (fun g => [groupDocOfGroup g]) := by
  unfold mongoWriteGroups
  exact foldl_upsertByKey_filter (fun d => d._id) groupDocOfGroup (fun g => g.id)
    (fun _ => rfl) bs col k

/-- Sorting a list with the pullback of the `String` order along a key
yields a list whose keys are sorted. -/
theorem sorted_key_insertionSort {ρ : Type} (key : ρ → String) (l : List ρ) :
    ((l.insertionSort (fun a b => key a ≤ key b)).map key).Sorted (· ≤ ·) := by
  haveI : IsTotal ρ (fun a b => key a ≤ key b) := ⟨fun a b => le_total (key a) (key b)⟩
  haveI : IsTrans ρ (fun a b => key a ≤ key b) := ⟨fun _ _ _ hab hbc => le_trans hab hbc⟩
  have hs := List.sorted_insertionSort (fun a b => key a ≤ key b) l
  exact List.Pairwise.map key (fun _ _ h => h) hs

/-! ### Claims -/

/-- Claim C5: running `migrate` with `dry_run = True` invokes none of
`ensure_schema`, `write_accounts`, or `write_groups` on the target — the
emitted operation sequence is empty — so the record counts and contents of a
target of either kind after the run equal those before the run. -/
theorem claim5_dry_run_no_op (accounts : List Account) (groups : List Group)
    (skip_cookies : Bool) (sst : SqliteState) (mst : MongoState) :
    migrateOps accounts groups true skip_cookies = [] ∧
    applySqliteOps sst (migrateOps accounts groups true skip_cookies) = sst ∧
    applyMongoOps mst (migrateOps accounts groups true skip_cookies) = mst :=
  ⟨rfl, rfl, rfl⟩

/-- Claim C4: when `migrate` runs with `skip_cookies` enabled (not a dry
run), it performs exactly `ensure_schema`, then `write_accounts` on the
cookie-stripped accounts, then `write_groups` on the groups read from the
source unchanged; every stripped account has `cookies = None` regardless of
the source values, and the Mongo document built for a stripped account has
no `cookies` field at all. -/
theorem claim4_skip_cookies_strips (accounts : List Account) (groups : List Group) :
    migrateOps accounts groups false true =
      [MigrateOp.ensureSchema, MigrateOp.writeAccounts (stripCookies accounts),
        MigrateOp.writeGroups groups] ∧
    (stripCookies accounts).map (fun acc => acc.cookies) =
      accounts.map (fun _ => Json.null) ∧
    ((stripCookies accounts).map accountDocOfAccount).map (fun doc => doc.cookies) =
      accounts.map (fun _ => (none : Option Json)) := by
  refine ⟨rfl, ?_, ?_⟩
  · rw [stripCookies, List.map_map]
    rfl
  · rw [stripCookies, List.map_map, List.map_map]
    rfl

/-- Claim C10: `MongoBackend.read_groups` substitutes defaults for absent
document fields — an absent `name` reads as the empty string, an absent
`account_ids` as the empty list, an absent `ranking` as the integer `0`,
and an absent `description` as `None` — so a group document lacking `name`
is returned (with an empty name) rather than failing. -/
theorem claim10_group_doc_defaults (doc : GroupDoc) :
    (doc.name = none → (groupOfDoc doc).name = "") ∧
    (doc.account_ids = none → (groupOfDoc doc).account_ids = Json.arr []) ∧
    (doc.ranking = DocField.absent → (groupOfDoc doc).ranking = some 0) ∧
    (doc.description = DocField.absent → (groupOfDoc doc).description = none) := by
  refine ⟨?_, ?_, ?_, ?_⟩ <;> intro h <;> simp [groupOfDoc, h]

/-- Witness for claim C10 at a document with every optional field absent. -/
theorem claim10_group_doc_defaults_witness :
    (groupOfDoc ⟨"g1", none, DocField.absent, none, DocField.absent⟩).name = "" ∧
    (groupOfDoc ⟨"g1", none, DocField.absent, none, DocField.absent⟩).account_ids =
      Json.arr [] ∧
    (groupOfDoc ⟨"g1", none, DocField.absent, none, DocField.absent⟩).ranking = some 0 ∧
    (groupOfDoc ⟨"g1", none, DocField.absent, none, DocField.absent⟩).description = none :=
  ⟨(claim10_group_doc_defaults _).1 rfl, (claim10_group_doc_defaults _).2.1 rfl,
    (claim10_group_doc_defaults _).2.2.1 rfl, (claim10_group_doc_defaults _).2.2.2 rfl⟩

/-- Claim C8: for every stored dataset and either backend kind, the read
operations return the records sorted ascending by id. -/
theorem claim8_reads_sorted_by_id (atbl : List AccountRow) (gtbl : List GroupRow)
    (acol : List AccountDoc) (gcol : List GroupDoc) :
    ((sqliteReadAccounts atbl).map (fun a => a.id)).Sorted (· ≤ ·) ∧
    ((sqliteReadGroups gtbl).map (fun g => g.id)).Sorted (· ≤ ·) ∧
    ((mongoReadAccounts acol).map (fun a => a.id)).Sorted (· ≤ ·) ∧
    ((mongoReadGroups gcol).map (fun g => g.id)).Sorted (· ≤ ·) := by
  refine ⟨?_, ?_, ?_, ?_⟩
  · rw [sqliteReadAccounts, List.map_map]
    exact sorted_key_insertionSort (fun r : AccountRow => r.id) atbl
  · rw [sqliteReadGroups, List.map_map]
    exact sorted_key_insertionSort (fun r : GroupRow => r.id) gtbl
  · rw [mongoReadAccounts, List.map_map]
    exact sorted_key_insertionSort (fun d : AccountDoc => d._id) acol
  · rw [mongoReadGroups, List.map_map]
    exact sorted_key_insertionSort (fun d : GroupDoc => d._id) gcol

/-- Claim C1 counterexample: an account written with an explicitly empty
cookies list to the SQLite backend reads back with cookies absent (`None`),
not empty — `write_accounts` stores `NULL` because the Python truthiness
test `if acc.cookies` treats `[]` as falsy. -/
theorem claim1_counterexample :
    sqliteReadAccounts (sqliteWriteAccounts []
        [{ id := "a1", role_name := "admin", user_name := "u", password := "p",
           server_id := 1, ranking := some 0, cookies := Json.arr [] }]) =
      [{ id := "a1", role_name := "admin", user_name := "u", password := "p",
         server_id := 1, ranking := some 0, cookies := Json.null }] ∧
    Json.null ≠ Json.arr [] :=
  ⟨rfl, fun h => nomatch h⟩

/-- Claim C1 amended: `cookies = None` round-trips as `None` through a
write-then-read on both backend kinds; an explicitly empty cookies list
round-trips as the empty list on the Mongo backend, but on the SQLite
backend it is stored as `NULL` and reads back as `None`. -/
theorem claim1_amended_cookie_round_trip (i rn un pw : String) (sid : Int)
    (rk : Option Int) :
    sqliteReadAccounts (sqliteWriteAccounts []
        [{ id := i, role_name := rn, user_name := un, password := pw,
           server_id := sid, ranking := rk, cookies := Json.null }]) =
      [{ id := i, role_name := rn, user_name := un, password := pw,
         server_id := sid, ranking := rk, cookies := Json.null }] ∧
    mongoReadAccounts (mongoWriteAccounts []
        [{ id := i, role_name := rn, user_name := un, password := pw,
           server_id := sid, ranking := rk, cookies := Json.null }]) =
      [{ id := i, role_name := rn, user_name := un, password := pw,
         server_id := sid, ranking := rk, cookies := Json.null }] ∧
    mongoReadAccounts (mongoWriteAccounts []
        [{ id := i, role_name := rn, user_name := un, password := pw,
           server_id := sid, ranking := rk, cookies := Json.arr [] }]) =
      [{ id := i, role_name := rn, user_name := un, password := pw,
         server_id := sid, ranking := rk, cookies := Json.arr [] }] ∧
    sqliteReadAccounts (sqliteWriteAccounts []
        [{ id := i, role_name := rn, user_name := un, password := pw,
           server_id := sid, ranking := rk, cookies := Json.arr [] }]) =
      [{ id := i, role_name := rn, user_name := un, password := pw,
         server_id := sid, ranking := rk, cookies := Json.null }] := by
  refine ⟨rfl, ?_, ?_, rfl⟩
  · cases rk <;> rfl
  · cases rk <;> rfl

/-- Claim C3 counterexample: a stored SQLite account row whose `ranking`
column is `NULL` is returned by `read_accounts` with `ranking = None`, not
the integer `0` — the SQLite reader passes `row["ranking"]` through without
defaulting. -/
theorem claim3_counterexample :
    (sqliteReadAccounts
        [{ id := "a1", role_name := "admin", user_name := "u", password := "p",
           server_id := 1, ranking := none, cookies := none }]).map
      (fun acc => acc.ranking) = [none] ∧
    (none : Option Int) ≠ some 0 :=
  ⟨rfl, fun h => nomatch h⟩

/-- Claim C3 amended: on the Mongo backend a record whose `ranking` field
is absent reads back with `ranking = 0` (for accounts and for groups), while
a stored Mongo null reads back as `None`; the SQLite backend returns the
stored `ranking` value unchanged (so a stored `NULL` reads as `None`, the
schema's `DEFAULT 0` applying only at insert time). -/
theorem claim3_amended_ranking_default (doc : AccountDoc) (gdoc : GroupDoc)
    (ndoc : AccountDoc) (ngdoc : GroupDoc) (row : AccountRow) (grow : GroupRow)
    (hd : doc.ranking = DocField.absent) (hg : gdoc.ranking = DocField.absent)
    (hn : ndoc.ranking = DocField.dbNull) (hng : ngdoc.ranking = DocField.dbNull) :
    (accountOfDoc doc).ranking = some 0 ∧
    (groupOfDoc gdoc).ranking = some 0 ∧
    (accountOfDoc ndoc).ranking = none ∧
    (groupOfDoc ngdoc).ranking = none ∧
    (accountOfRow row).ranking = row.ranking ∧
    (groupOfRow grow).ranking = grow.ranking := by
  refine ⟨?_, ?_, ?_, ?_, rfl, rfl⟩
  · simp [accountOfDoc, hd]
  · simp [groupOfDoc, hg]
  · simp [accountOfDoc, hn]
  · simp [groupOfDoc, hng]

/-- Witness for the amended claim C3 at concrete documents and rows. -/
theorem claim3_amended_ranking_default_witness :
    (⟨"a1", some "admin", some "u", some "p", some 1, DocField.absent, none⟩ :
        AccountDoc).ranking = DocField.absent ∧
    (⟨"g1", some "G", DocField.dbNull, some (Json.arr []), DocField.absent⟩ :
        GroupDoc).ranking = DocField.absent ∧
    (⟨"a2", some "admin", some "u", some "p", some 1, DocField.dbNull, none⟩ :
        AccountDoc).ranking = DocField.dbNull ∧
    (⟨"g3", some "H", DocField.dbNull, some (Json.arr []), DocField.dbNull⟩ :
        GroupDoc).ranking = DocField.dbNull ∧
    (accountOfDoc ⟨"a1", some "admin", some "u", some "p", some 1, DocField.absent,
        none⟩).ranking = some 0 ∧
    (groupOfDoc ⟨"g1", some "G", DocField.dbNull, some (Json.arr []),
        DocField.absent⟩).ranking = some 0 ∧
    (accountOfDoc ⟨"a2", some "admin", some "u", some "p", some 1, DocField.dbNull,
        none⟩).ranking = none ∧
    (groupOfDoc ⟨"g3", some "H", DocField.dbNull, some (Json.arr []),
        DocField.dbNull⟩).ranking = none ∧
    (accountOfRow ⟨"a3", "admin", "u", "p", 1, none, none⟩).ranking = none ∧
    (groupOfRow ⟨"g2", "G", none, JText.enc (Json.arr []), some 2⟩).ranking = some 2 := by
  refine ⟨rfl, rfl, rfl, rfl, ?_⟩
  exact claim3_amended_ranking_default _ _ _ _
    ⟨"a3", "admin", "u", "p", 1, none, none⟩
    ⟨"g2", "G", none, JText.enc (Json.arr []), some 2⟩ rfl rfl rfl rfl

/-- Claim C7 counterexample: `create_backend` for the SQLite kind rejects a
*present* but empty path parameter exactly like a missing one, because the
check is Python truthiness (`if not path`), so "all required parameters
present" does not suffice for success as the claim states. -/
theorem claim7_counterexample :
    createBackend "sqlite" (some "") none none =
      Except.error "SQLite requires --source-path or --target-path" :=
  rfl

/-- Claim C7 amended: `create_backend` with the SQLite kind and a missing
(or empty) path, or the Mongo kind with a missing (or empty) uri or database
name, fails with the configuration `ValueError` — raised by the pure factory
before any backend object exists, hence before any network or file I/O —
and with all required parameters present and non-empty it returns the
backend of the requested kind. -/
theorem claim7_amended_factory_validation (p u d : String) (uriArg dbArg pathArg : Option String)
    (hp : p ≠ "") (hu : u ≠ "") (hd : d ≠ "") :
    createBackend "sqlite" none uriArg dbArg =
      Except.error "SQLite requires --source-path or --target-path" ∧
    createBackend "sqlite" (some "") uriArg dbArg =
      Except.error "SQLite requires --source-path or --target-path" ∧
    createBackend "sqlite" (some p) uriArg dbArg = Except.ok (Backend.sqlite p) ∧
    createBackend "mongodb" pathArg none dbArg =
      Except.error "MongoDB requires --source-uri/--target-uri and --source-db/--target-db" ∧
    createBackend "mongodb" pathArg (some "") dbArg =
      Except.error "MongoDB requires --source-uri/--target-uri and --source-db/--target-db" ∧
    createBackend "mongodb" pathArg (some u) none =
      Except.error "MongoDB requires --source-uri/--target-uri and --source-db/--target-db" ∧
    createBackend "mongodb" pathArg (some u) (some "") =
      Except.error "MongoDB requires --source-uri/--target-uri and --source-db/--target-db" ∧
    createBackend "mongodb" pathArg (some u) (some d) =
      Except.ok (Backend.mongodb u d) := by
  refine ⟨rfl, rfl, ?_, rfl, rfl, ?_, ?_, ?_⟩
  · simp [createBackend, pyTruthyOptStr, hp]
  · simp [createBackend, pyTruthyOptStr, hu]
  · simp [createBackend, pyTruthyOptStr, hu]
  · simp [createBackend, pyTruthyOptStr, hu, hd]

/-- Witness for the amended claim C7 at concrete parameters. -/
theorem claim7_amended_factory_validation_witness :
    ("wardenly.db" : String) ≠ "" ∧ ("mongodb://localhost:27017" : String) ≠ "" ∧
    ("wardenly" : String) ≠ "" ∧
    createBackend "sqlite" none none none =
      Except.error "SQLite requires --source-path or --target-path" ∧
    createBackend "sqlite" (some "") none none =
      Except.error "SQLite requires --source-path or --target-path" ∧
    createBackend "sqlite" (some "wardenly.db") none none =
      Except.ok (Backend.sqlite "wardenly.db") ∧
    createBackend "mongodb" none none none =
      Except.error "MongoDB requires --source-uri/--target-uri and --source-db/--target-db" ∧
    createBackend "mongodb" none (some "") none =
      Except.error "MongoDB requires --source-uri/--target-uri and --source-db/--target-db" ∧
    createBackend "mongodb" none (some "mongodb://localhost:27017") none =
      Except.error "MongoDB requires --source-uri/--target-uri and --source-db/--target-db" ∧
    createBackend "mongodb" none (some "mongodb://localhost:27017") (some "") =
      Except.error "MongoDB requires --source-uri/--target-uri and --source-db/--target-db" ∧
    createBackend "mongodb" none (some "mongodb://localhost:27017") (some "wardenly") =
      Except.ok (Backend.mongodb "mongodb://localhost:27017" "wardenly") := by
  have h := claim7_amended_factory_validation "wardenly.db" "mongodb://localhost:27017"
    "wardenly" none none none (by decide) (by decide) (by decide)
  exact ⟨by decide, by decide, by decide, h.1, h.2.1, h.2.2.1, h.2.2.2.1, h.2.2.2.2.1,
    h.2.2.2.2.2.1, h.2.2.2.2.2.2.1, h.2.2.2.2.2.2.2⟩

/-- Claim C2: for either backend kind, writing a record and then writing
another record with the same id (two successive calls to `write_accounts`,
resp. `write_groups`) leaves exactly one stored record for that id, and that
record is the full translation of the second write's record (full replace,
not a partial merge). -/
theorem claim2_idempotent_upsert (tblA : List AccountRow) (colA : List AccountDoc)
    (tblG : List GroupRow) (colG : List GroupDoc) (a b : Account) (g1 g2 : Group)
    (hab : a.id = b.id) (hg : g1.id = g2.id) :
    (sqliteWriteAccounts (sqliteWriteAccounts tblA [a]) [b]).countP
        (fun r => r.id == b.id) = 1 ∧
    (sqliteWriteAccounts (sqliteWriteAccounts tblA [a]) [b]).filter
        (fun r => r.id == b.id) = [accountRowOfAccount b] ∧
    (mongoWriteAccounts (mongoWriteAccounts colA [a]) [b]).countP
        (fun doc => doc._id == b.id) = 1 ∧
    (mongoWriteAccounts (mongoWriteAccounts colA [a]) [b]).filter
        (fun doc => doc._id == b.id) = [accountDocOfAccount b] ∧
    (sqliteWriteGroups (sqliteWriteGroups tblG [g1]) [g2]).countP
        (fun r => r.id == g2.id) = 1 ∧
    (sqliteWriteGroups (sqliteWriteGroups tblG [g1]) [g2]).filter
        (fun r => r.id == g2.id) = [groupRowOfGroup g2] ∧
    (mongoWriteGroups (mongoWriteGroups colG [g1]) [g2]).countP
        (fun doc => doc._id == g2.id) = 1 ∧
    (mongoWriteGroups (mongoWriteGroups colG [g1]) [g2]).filter
        (fun doc => doc._id == g2.id) = [groupDocOfGroup g2] := by
  have hA : (sqliteWriteAccounts (sqliteWriteAccounts tblA [a]) [b]).filter
      (fun r => r.id == b.id) = [accountRowOfAccount b] := by
    rw [sqliteWriteAccounts_filter]
    simp
  have hB : (mongoWriteAccounts (mongoWriteAccounts colA [a]) [b]).filter
      (fun doc => doc._id == b.id) = [accountDocOfAccount b] := by
    rw [mongoWriteAccounts_filter]
    simp
  have hC : (sqliteWriteGroups (sqliteWriteGroups tblG [g1]) [g2]).filter
      (fun r => r.id == g2.id) = [groupRowOfGroup g2] := by
    rw [sqliteWriteGroups_filter]
    simp
  have hD : (mongoWriteGroups (mongoWriteGroups colG [g1]) [g2]).filter
      (fun doc => doc._id == g2.id) = [groupDocOfGroup g2] := by
    rw [mongoWriteGroups_filter]
    simp
  refine ⟨?_, hA, ?_, hB, ?_, hC, ?_, hD⟩ <;>
    rw [List.countP_eq_length_filter] <;> simp [hA, hB, hC, hD]

/-- Witness for claim C2: writing account `a` then account `b` with the same
id `"a1"` (and group `g1` then `g2` with id `"g1"`) leaves exactly the
second record, on both backends. -/
theorem claim2_idempotent_upsert_witness :
    ("a1" : String) = "a1" ∧ ("g1" : String) = "g1" ∧
    (sqliteWriteAccounts (sqliteWriteAccounts []
        [{ id := "a1", role_name := "old", user_name := "u", password := "p",
           server_id := 1, ranking := some 1, cookies := Json.null }])
        [{ id := "a1", role_name := "new", user_name := "u2", password := "p2",
           server_id := 2, ranking := some 2, cookies := Json.null }]).countP
      (fun r => r.id == "a1") = 1 ∧
    (mongoWriteGroups (mongoWriteGroups []
        [{ id := "g1", name := "old", description := none,
           account_ids := Json.arr [], ranking := some 0 }])
        [{ id := "g1", name := "new", description := some "d",
           account_ids := Json.arr [Json.str "a1"], ranking := some 1 }]).filter
      (fun doc => doc._id == "g1") =
      [groupDocOfGroup
        { id := "g1", name := "new", description := some "d",
          account_ids := Json.arr [Json.str "a1"], ranking := some 1 }] := by
  have h := claim2_idempotent_upsert [] [] [] []
    { id := "a1", role_name := "old", user_name := "u", password := "p",
      server_id := 1, ranking := some 1, cookies := Json.null }
    { id := "a1", role_name := "new", user_name := "u2", password := "p2",
      server_id := 2, ranking := some 2, cookies := Json.null }
    { id := "g1", name := "old", description := none,
      account_ids := Json.arr [], ranking := some 0 }
    { id := "g1", name := "new", description := some "d",
      account_ids := Json.arr [Json.str "a1"], ranking := some 1 }
    rfl rfl
  exact ⟨rfl, rfl, h.1, h.2.2.2.2.2.2.2⟩

/-- Claim C9: a single `write_accounts` (resp. `write_groups`) call applies
its records sequentially in list order, so a batch containing two records
with the same id leaves the stored record equal to the full translation of
the later occurrence, and only one stored record for that id. -/
theorem claim9_last_wins_in_batch (tblA : List AccountRow) (colA : List AccountDoc)
    (tblG : List GroupRow) (colG : List GroupDoc) (a b : Account) (g1 g2 : Group)
    (hab : a.id = b.id) (hg : g1.id = g2.id) :
    (∀ (bs : List Account) (k : String),
      (sqliteWriteAccounts tblA bs).filter (fun r => r.id == k) =
        ((bs.filter (fun x => x.id == k)).getLast?).elim
          (tblA.filter (fun r => r.id == k)) (fun x => [accountRowOfAccount x])) ∧
    (∀ (bs : List Account) (k : String),
      (mongoWriteAccounts colA bs).filter (fun doc => doc._id == k) =
        ((bs.filter (fun x => x.id == k)).getLast?).elim
          (colA.filter (fun doc => doc._id == k)) (fun x => [accountDocOfAccount x])) ∧
    (∀ (bs : List Group) (k : String),
      (sqliteWriteGroups tblG bs).filter (fun r => r.id == k) =
        ((bs.filter (fun x => x.id == k)).getLast?).elim
          (tblG.filter (fun r => r.id == k)) (fun x => [groupRowOfGroup x])) ∧
    (∀ (bs : List Group) (k : String),
      (mongoWriteGroups colG bs).filter (fun doc => doc._id == k) =
        ((bs.filter (fun x => x.id == k)).getLast?).elim
          (colG.filter (fun doc => doc._id == k)) (fun x => [groupDocOfGroup x])) ∧
    (sqliteWriteAccounts tblA [a, b]).countP (fun r => r.id == b.id) = 1 ∧
    (sqliteWriteAccounts tblA [a, b]).filter (fun r => r.id == b.id) =
      [accountRowOfAccount b] ∧
    (mongoWriteAccounts colA [a, b]).countP (fun doc => doc._id == b.id) = 1 ∧
    (mongoWriteAccounts colA [a, b]).filter (fun doc => doc._id == b.id) =
      [accountDocOfAccount b] ∧
    (sqliteWriteGroups tblG [g1, g2]).countP (fun r => r.id == g2.id) = 1 ∧
    (sqliteWriteGroups tblG [g1, g2]).filter (fun r => r.id == g2.id) =
      [groupRowOfGroup g2] ∧
    (mongoWriteGroups colG [g1, g2]).countP (fun doc => doc._id == g2.id) = 1 ∧
    (mongoWriteGroups colG [g1, g2]).filter (fun doc => doc._id == g2.id) =
      [groupDocOfGroup g2] := by
  have hA : (sqliteWriteAccounts tblA [a, b]).filter (fun r => r.id == b.id) =
      [accountRowOfAccount b] := by
    rw [sqliteWriteAccounts_filter]
    simp [hab]
  have hB : (mongoWriteAccounts colA [a, b]).filter (fun doc => doc._id == b.id) =
      [accountDocOfAccount b] := by
    rw [mongoWriteAccounts_filter]
    simp [hab]
  have hC : (sqliteWriteGroups tblG [g1, g2]).filter (fun r => r.id == g2.id) =
      [groupRowOfGroup g2] := by
    rw [sqliteWriteGroups_filter]
    simp [hg]
  have hD : (mongoWriteGroups colG [g1, g2]).filter (fun doc => doc._id == g2.id) =
      [groupDocOfGroup g2] := by
    rw [mongoWriteGroups_filter]
    simp [hg]
  refine ⟨fun bs k => sqliteWriteAccounts_filter tblA bs k,
    fun bs k => mongoWriteAccounts_filter colA bs k,
    fun bs k => sqliteWriteGroups_filter tblG bs k,
    fun bs k => mongoWriteGroups_filter colG bs k,
    ?_, hA, ?_, hB, ?_, hC, ?_, hD⟩ <;>
    rw [List.countP_eq_length_filter] <;> simp [hA, hB, hC, hD]

/-- Witness for claim C9: a single batch holding two same-id records stores
only the later one, on both backends. -/
theorem claim9_last_wins_in_batch_witness :
    ("a1" : String) = "a1" ∧ ("g1" : String) = "g1" ∧
    (sqliteWriteAccounts []
        [{ id := "a1", role_name := "old", user_name := "u", password := "p",
           server_id := 1, ranking := some 1, cookies := Json.null },
         { id := "a1", role_name := "new", user_name := "u2", password := "p2",
           server_id := 2, ranking := some 2, cookies := Json.null }]).filter
      (fun r => r.id == "a1") =
      [accountRowOfAccount
        { id := "a1", role_name := "new", user_name := "u2", password := "p2",
          server_id := 2, ranking := some 2, cookies := Json.null }] ∧
    (mongoWriteAccounts []
        [{ id := "a1", role_name := "old", user_name := "u", password := "p",
           server_id := 1, ranking := some 1, cookies := Json.null },
         { id := "a1", role_name := "new", user_name := "u2", password := "p2",
           server_id := 2, ranking := some 2, cookies := Json.null }]).countP
      (fun doc => doc._id == "a1") = 1 := by
  have h := claim9_last_wins_in_batch [] [] [] []
    { id := "a1", role_name := "old", user_name := "u", password := "p",
      server_id := 1, ranking := some 1, cookies := Json.null }
    { id := "a1", role_name := "new", user_name := "u2", password := "p2",
      server_id := 2, ranking := some 2, cookies := Json.null }
    { id := "g1", name := "old", description := none,
      account_ids := Json.arr [], ranking := some 0 }
    { id := "g1", name := "new", description := some "d",
      account_ids := Json.arr [Json.str "a1"], ranking := some 1 }
    rfl rfl
  exact ⟨rfl, rfl, h.2.2.2.2.2.1, h.2.2.2.2.2.2.1⟩

/-- A sample SQLite account row whose `cookies` column holds text that is
not valid JSON. -/
def sampleBadCookiesRow : AccountRow :=
  { id := "a1", role_name := "admin", user_name := "u", password := "p",
    server_id := 1, ranking := some 0, cookies := some (JText.malformed "not json") }

/-- A sample SQLite group row whose `account_ids` column holds text that is
not valid JSON. -/
def sampleBadAccountIdsRow : GroupRow :=
  { id := "g1", name := "G", description := none,
    account_ids := JText.malformed "oops", ranking := some 0 }

/-- Claim C6: a stored SQLite row whose `cookies` (resp. `account_ids`)
text fails to parse is still returned by `read_accounts` (resp.
`read_groups`) — the decode failure is swallowed — with `cookies = None`
(resp. `account_ids = []`). -/
theorem claim6_lossy_tolerant_decode (tbl : List AccountRow) (row : AccountRow)
    (s : String) (gtbl : List GroupRow) (grow : GroupRow) (s2 : String)
    (hrow : row ∈ tbl) (hs : row.cookies = some (JText.malformed s))
    (hgrow : grow ∈ gtbl) (hs2 : grow.account_ids = JText.malformed s2) :
    accountOfRow row ∈ sqliteReadAccounts tbl ∧
    (accountOfRow row).cookies = Json.null ∧
    groupOfRow grow ∈ sqliteReadGroups gtbl ∧
    (groupOfRow grow).account_ids = Json.arr [] := by
  refine ⟨?_, ?_, ?_, ?_⟩
  · simp only [sqliteReadAccounts]
    exact List.mem_map_of_mem _ ((List.mem_insertionSort _).mpr hrow)
  · simp [accountOfRow, decodeCookiesCell, hs, tTruthy, jloads]
  · simp only [sqliteReadGroups]
    exact List.mem_map_of_mem _ ((List.mem_insertionSort _).mpr hgrow)
  · simp [groupOfRow, decodeAccountIdsCell, hs2, tTruthy, jloads]

/-- Witness for claim C6 at concrete malformed rows. -/
theorem claim6_lossy_tolerant_decode_witness :
    sampleBadCookiesRow ∈ [sampleBadCookiesRow] ∧
    sampleBadCookiesRow.cookies = some (JText.malformed "not json") ∧
    sampleBadAccountIdsRow ∈ [sampleBadAccountIdsRow] ∧
    sampleBadAccountIdsRow.account_ids = JText.malformed "oops" ∧
    accountOfRow sampleBadCookiesRow ∈ sqliteReadAccounts [sampleBadCookiesRow] ∧
    (accountOfRow sampleBadCookiesRow).cookies = Json.null ∧
    groupOfRow sampleBadAccountIdsRow ∈ sqliteReadGroups [sampleBadAccountIdsRow] ∧
    (groupOfRow sampleBadAccountIdsRow).account_ids = Json.arr [] := by
  have h := claim6_lossy_tolerant_decode [sampleBadCookiesRow] sampleBadCookiesRow
    "not json" [sampleBadAccountIdsRow] sampleBadAccountIdsRow "oops"
    (List.mem_singleton_self _) rfl (List.mem_singleton_self _) rfl
  exact ⟨List.mem_singleton_self _, rfl, List.mem_singleton_self _, rfl,
    h.1, h.2.1, h.2.2.1, h.2.2.2⟩

end DataMigrate
